import Mathlib

/-!
Verification of the matching/notification pipeline of the get-volunteers
backend, as a shallow embedding of the Python source in Lean 4.

The embedding covers:
  - the ORM data model (src/app/db/models.py) and the migration-level table
    layout (src/alembic/versions);
  - the match store (src/app/crud/crud_match.py);
  - the volunteer repository operations used by the pipeline
    (src/app/crud/crud_volunteer.py, src/app/crud/crud_need.py);
  - the matching engine (src/app/services/matching_service.py), with the
    Gemini call outcome and the email provider modelled as explicit oracles;
  - the notification dispatcher (src/app/services/email_service.py);
  - the background trigger handlers (src/app/events/match_handlers.py).

Python exceptions are modelled with an explicit error component; fallible
operations return `Except PyError`. JSON values decoded by `json.loads` are
modelled by the inductive type `JsonVal`, with Python truthiness, iteration
and `isinstance` checks embedded as executable functions.
-/

set_option maxHeartbeats 1000000

namespace GetVolunteers

/-- Python exceptions that the embedded code can raise. -/
inductive PyError where
  | typeError (msg : String)
  | integrityError (msg : String)
  | attributeError (msg : String)
deriving DecidableEq, Repr

/-- Volunteer row, following the mapped columns of `class Volunteer`
in src/app/db/models.py (relationships omitted; they are derived views). -/
structure Volunteer where
  id : Int
  name : String
  email : String
  password : String
  phone : Option String
  about_me : Option String
  skills : Option String
  volunteer_interests : Option String
  location : Option String
  availability : Option String
  is_active : Int
deriving DecidableEq, Repr

/-- Need row, following the mapped columns of `class Need` in
src/app/db/models.py. The `format` column is the SQL enum
("in-person" | "virtual"), kept as a string. -/
structure Need where
  id : Int
  title : String
  description : String
  required_tasks : Option String
  required_skills : Option String
  num_volunteers_needed : Int
  format : String
  location_details : Option String
  contact_name : String
  contact_email : String
  contact_phone : Option String
  owner_id : Int
deriving DecidableEq, Repr

/-- Match row, following the mapped columns of `class VolunteerNeedMatch` in
src/app/db/models.py (id, volunteer_id, need_id, match_details). Note that
the migration 3c1e4e2b4f90 adds a nullable `created_at` column to the table,
but the mapped class in models.py does not declare it; the mapped attributes
are recorded separately in `volunteerNeedMatch_mapped_attrs`. -/
structure VolunteerNeedMatch where
  id : Int
  volunteer_id : Int
  need_id : Int
  match_details : String
deriving DecidableEq, Repr

/-- Database state: the three tables plus autoincrement counters for the
primary keys handed out on insert. -/
structure DB where
  volunteers : List Volunteer
  needs : List Need
  volunteer_need_matches : List VolunteerNeedMatch
  next_volunteer_id : Int
  next_match_id : Int
deriving DecidableEq, Repr

/-! Repository read accessors (src/app/crud/crud_volunteer.py,
src/app/crud/crud_need.py). A SQL `filter(...).first()` is the first list
element satisfying the predicate; `offset(skip).limit(limit).all()` is
drop-then-take in primary-key (insertion) order. -/

/-- get_volunteer (src/app/crud/crud_volunteer.py line 15). -/
def get_volunteer (db : DB) (volunteer_id : Int) : Option Volunteer :=
  db.volunteers.find? (fun v => v.id == volunteer_id)

/-- get_volunteers (src/app/crud/crud_volunteer.py line 25). The Python
signature has default values skip=0, limit=100; the defaults are passed
explicitly at the call sites embedded below. -/
def get_volunteers (db : DB) (skip limit : Nat) : List Volunteer :=
  (db.volunteers.drop skip).take limit

/-- get_need (src/app/crud/crud_need.py line 15). -/
def get_need (db : DB) (need_id : Int) : Option Need :=
  db.needs.find? (fun n => n.id == need_id)

/-- get_needs (src/app/crud/crud_need.py line 19), defaults skip=0 limit=100
passed explicitly at call sites. -/
def get_needs (db : DB) (skip limit : Nat) : List Need :=
  (db.needs.drop skip).take limit

/-! Match store (src/app/crud/crud_match.py). -/

/-- Mapped attribute names of the `VolunteerNeedMatch` declarative class
(src/app/db/models.py lines 47-55): the four columns and the two
relationships. The SQLAlchemy declarative constructor accepts exactly the
mapped attribute names as keywords and raises TypeError for any other
keyword argument. -/
def volunteerNeedMatch_mapped_attrs : List String :=
  ["id", "volunteer_id", "need_id", "match_details", "volunteer", "need"]

/-- Keyword arguments passed to the `VolunteerNeedMatch` constructor by
`create_match` (src/app/crud/crud_match.py lines 17-19). -/
def create_match_kwargs : List String :=
  ["volunteer_id", "need_id", "match_details", "created_at"]

/-- The TypeError raised by the declarative constructor when it receives the
keyword `created_at`, which is not a mapped attribute of the class. -/
def created_at_type_error : PyError :=
  PyError.typeError "created_at is an invalid keyword argument for VolunteerNeedMatch"

/-- create_match (src/app/crud/crud_match.py lines 13-23): constructs
`VolunteerNeedMatch(volunteer_id=.., need_id=.., match_details=.., created_at=..)`,
then `db.add`, `db.commit`, `db.refresh`, returning the row. The constructor
checks its keywords against the mapped attributes and raises TypeError on an
unknown keyword; the commit raises IntegrityError when a foreign-key
constraint (volunteer_id -> volunteers.id, need_id -> needs.id, migration
8f08437c10c0) is violated. Neither exception is caught here. -/
def create_match (db : DB) (volunteer_id need_id : Int) (match_details : String) :
    Except PyError (DB × VolunteerNeedMatch) :=
  if create_match_kwargs.all (fun k => volunteerNeedMatch_mapped_attrs.contains k) then
    if db.volunteers.any (fun v => v.id == volunteer_id)
        && db.needs.any (fun n => n.id == need_id) then
      let row : VolunteerNeedMatch :=
        { id := db.next_match_id, volunteer_id := volunteer_id, need_id := need_id,
          match_details := match_details }
      Except.ok
        ({ db with volunteer_need_matches := db.volunteer_need_matches ++ [row], next_match_id := db.next_match_id + 1 }, row)
    else
      Except.error (PyError.integrityError "foreign key constraint fails")
  else
    Except.error created_at_type_error

/-- get_matches_for_volunteer (src/app/crud/crud_match.py lines 26-34). -/
def get_matches_for_volunteer (db : DB) (volunteer_id : Int) : List VolunteerNeedMatch :=
  db.volunteer_need_matches.filter (fun m => m.volunteer_id == volunteer_id)

/-- get_matches_for_need (src/app/crud/crud_match.py lines 37-41). -/
def get_matches_for_need (db : DB) (need_id : Int) : List VolunteerNeedMatch :=
  db.volunteer_need_matches.filter (fun m => m.need_id == need_id)

/-- delete_matches_for_need (src/app/crud/crud_match.py lines 44-50):
bulk-deletes every row whose need_id equals the argument, then commits. -/
def delete_matches_for_need (db : DB) (need_id : Int) : DB :=
  { db with volunteer_need_matches := db.volunteer_need_matches.filter (fun m => !(m.need_id == need_id)) }

/-- delete_matches_for_volunteer (src/app/crud/crud_match.py lines 53-61). -/
def delete_matches_for_volunteer (db : DB) (volunteer_id : Int) : DB :=
  { db with volunteer_need_matches := db.volunteer_need_matches.filter (fun m => !(m.volunteer_id == volunteer_id)) }

/-! JSON values and the Python primitives applied to them by the engine. -/

/-- A JSON value as decoded by `json.loads`. Non-integral JSON numbers are
collapsed into the payload-free `jfloat` constructor; none of the verified
claims involves them. -/
inductive JsonVal where
  | jnull
  | jbool (b : Bool)
  | jint (n : Int)
  | jfloat
  | jstr (s : String)
  | jarr (items : List JsonVal)
  | jobj (fields : List (String × JsonVal))

/-- Python dict `.get(key)`: the value stored under the key, where a
duplicated key in the decoded JSON object keeps the last occurrence. -/
def py_dict_get (fields : List (String × JsonVal)) (key : String) : Option JsonVal :=
  (fields.reverse.find? (fun kv => kv.1 == key)).map (fun kv => kv.2)

/-- Python `isinstance(x, int)` on an optional JSON value; `bool` is a
subclass of `int` in Python, so booleans pass the check. `None` (a missing
key) does not. -/
def py_isinstance_int : Option JsonVal → Bool
  | some (JsonVal.jint _) => true
  | some (JsonVal.jbool _) => true
  | _ => false

/-- Python `isinstance(x, str)` on an optional JSON value. -/
def py_isinstance_str : Option JsonVal → Bool
  | some (JsonVal.jstr _) => true
  | _ => false

/-- The integer value of a JSON value that passed `py_isinstance_int`
(Python booleans are the integers 1 and 0). -/
def py_to_int : Option JsonVal → Int
  | some (JsonVal.jint n) => n
  | some (JsonVal.jbool b) => if b then 1 else 0
  | _ => 0

/-- The string value of a JSON value that passed `py_isinstance_str`. -/
def py_to_str : Option JsonVal → String
  | some (JsonVal.jstr s) => s
  | _ => ""

/-- Python truthiness of a JSON value, as used by `if gemini_response:`.
The payload-free `jfloat` is treated as truthy (a zero float is not
distinguished; no claim involves floats). -/
def py_truthy : JsonVal → Bool
  | JsonVal.jnull => false
  | JsonVal.jbool b => b
  | JsonVal.jint n => !(n == 0)
  | JsonVal.jfloat => true
  | JsonVal.jstr s => !s.isEmpty
  | JsonVal.jarr items => !items.isEmpty
  | JsonVal.jobj fields => !fields.isEmpty

/-- Python iteration `for x in v:` over a JSON value: lists yield their
items, dicts their keys, strings their characters; other values raise
TypeError. -/
def py_iter : JsonVal → Except PyError (List JsonVal)
  | JsonVal.jarr items => Except.ok items
  | JsonVal.jobj fields => Except.ok (fields.map (fun kv => JsonVal.jstr kv.1))
  | JsonVal.jstr s => Except.ok (s.data.map (fun c => JsonVal.jstr (String.mk [c])))
  | _ => Except.error (PyError.typeError "object is not iterable")

/-! The Gemini call wrapper (src/app/services/matching_service.py lines
87-110). The network interaction is modelled by an outcome value: either the
provider returned a candidate with content parts whose text is then passed
to `json.loads` (which may itself raise), or the response lacked the
expected candidate/content/parts structure, or the API call raised. -/

/-- Outcome of the `generate_content_async` interaction inside
`_call_gemini_api`. -/
inductive GeminiOutcome where
  | content (decoded : Except String JsonVal)
  | emptyContent
  | apiError (msg : String)

/-- The body of `_call_gemini_api`: returns the decoded JSON on success;
returns `none` (Python `None`) when the response structure is unexpected,
when `json.loads` raises, or when the API call raises — the single
`except Exception` around the whole body catches every error and the
function logs a diagnostic and returns `None`. -/
def call_gemini_api : GeminiOutcome → Option JsonVal
  | GeminiOutcome.content (Except.ok v) => some v
  | GeminiOutcome.content (Except.error _) => none
  | GeminiOutcome.emptyContent => none
  | GeminiOutcome.apiError _ => none

/-! The notification dispatcher (src/app/services/email_service.py). The
SendGrid provider is modelled by an oracle mapping the recipient address to
either a status code or a raised error. -/

/-- Per-recipient outcome of `self.sg.send(message)`. -/
def EmailOracle : Type := String → Except String Nat

/-- Record of one attempted send after `_send_email` has run: the recipient,
the subject, and whether the provider accepted the message (`delivered`
is false when `sg.send` raised and the exception was caught and logged). -/
structure EmailAttempt where
  to_email : String
  subject : String
  delivered : Bool
deriving DecidableEq, Repr

/-- Subject of the message to the volunteer
(src/app/services/email_service.py line 31). -/
def volunteer_match_subject (need : Need) : String :=
  "New Match Found: " ++ need.title ++ " needs your help!"

/-- Subject of the message to the need contact
(src/app/services/email_service.py line 55). -/
def need_match_subject (need : Need) : String :=
  "New Volunteer Match for your Need: " ++ need.title

/-- The private helper `_send_email` (src/app/services/email_service.py lines
81-97): builds the Mail and calls `self.sg.send(message)` inside
`try/except Exception`; a provider error is logged and swallowed, so the
helper always returns normally. The HTML body is pure string formatting with
no failure mode and is not recorded. -/
def send_email (sg : EmailOracle) (to_email subject : String) : EmailAttempt :=
  match sg to_email with
  | Except.ok _status => { to_email := to_email, subject := subject, delivered := true }
  | Except.error _msg => { to_email := to_email, subject := subject, delivered := false }

/-- send_match_notification (src/app/services/email_service.py lines 20-79):
one message to the volunteer, then one message to the need contact, each
through `_send_email`. -/
def send_match_notification (sg : EmailOracle) (volunteer : Volunteer) (need : Need)
    (_match_details : String) : List EmailAttempt :=
  [send_email sg volunteer.email (volunteer_match_subject need),
   send_email sg need.contact_email (need_match_subject need)]

/-! The matching engine (src/app/services/matching_service.py lines
112-248). A run is a pure function of the database, the pivot, the candidate
list, the Gemini outcome and the email oracle; its result records the final
database, how many LLM calls were made, the logged warnings, the attempted
email sends, and the exception that escaped the run, if any (the engine has
no try/except of its own, so errors raised while processing items propagate
after the effects already committed). -/

/-- Warnings printed by the pipeline, in structured form. -/
inductive LogWarning where
  | no_volunteers_for_need (need_id : Int)
  | no_needs_for_volunteer (volunteer_id : Int)
  | nonexistent_volunteer (volunteer_id : Int) (need_id : Int)
  | nonexistent_need (need_id : Int) (volunteer_id : Int)
  | invalid_match_data_for_need (need_id : Int)
  | invalid_match_data_for_volunteer (volunteer_id : Int)
  | no_valid_matches_for_need (need_id : Int)
  | no_valid_matches_for_volunteer (volunteer_id : Int)
  | need_not_found (need_id : Int)
  | volunteer_not_found (volunteer_id : Int)
deriving DecidableEq, Repr

/-- State accumulated while processing the items of one response. -/
structure BatchResult where
  db : DB
  warnings : List LogWarning
  emails : List EmailAttempt
  error : Option PyError
deriving DecidableEq, Repr

/-- Final state of one engine run. -/
structure EngineResult where
  db : DB
  llm_calls : Nat
  warnings : List LogWarning
  emails : List EmailAttempt
  error : Option PyError
deriving DecidableEq, Repr

/-- Loop body of `analyze_and_match` (src/app/services/matching_service.py
lines 159-173): read `volunteer_id` and `match_details` with `.get`, check
`isinstance(volunteer_id, int) and isinstance(match_details, str)`, resolve
the volunteer against the repository, create the match and send the
notification, or log the appropriate warning. Calling `.get` on a non-dict
item raises AttributeError. -/
def process_need_match_item (db : DB) (need : Need) (sg : EmailOracle) (item : JsonVal) :
    BatchResult :=
  match item with
  | JsonVal.jobj fields =>
    let volunteer_id := py_dict_get fields "volunteer_id"
    let match_details := py_dict_get fields "match_details"
    if py_isinstance_int volunteer_id && py_isinstance_str match_details then
      match get_volunteer db (py_to_int volunteer_id) with
      | some volunteer =>
        match create_match db (py_to_int volunteer_id) need.id (py_to_str match_details) with
        | Except.ok (db2, _row) =>
          { db := db2, warnings := [],
            emails := send_match_notification sg volunteer need (py_to_str match_details),
            error := none }
        | Except.error e => { db := db, warnings := [], emails := [], error := some e }
      | none =>
        { db := db,
          warnings := [LogWarning.nonexistent_volunteer (py_to_int volunteer_id) need.id],
          emails := [], error := none }
    else
      { db := db, warnings := [LogWarning.invalid_match_data_for_need need.id],
        emails := [], error := none }
  | _ =>
    { db := db, warnings := [], emails := [],
      error := some (PyError.attributeError "object has no attribute get") }

/-- The `for match_data in gemini_response:` loop of `analyze_and_match`:
items are processed in order; an uncaught exception stops the loop, keeping
the effects of the items already processed. -/
def process_need_match_items (db : DB) (need : Need) (sg : EmailOracle) :
    List JsonVal → BatchResult
  | [] => { db := db, warnings := [], emails := [], error := none }
  | item :: rest =>
    let r := process_need_match_item db need sg item
    match r.error with
    | some e => { db := r.db, warnings := r.warnings, emails := r.emails, error := some e }
    | none =>
      let rs := process_need_match_items r.db need sg rest
      { db := rs.db, warnings := r.warnings ++ rs.warnings,
        emails := r.emails ++ rs.emails, error := rs.error }

/-- analyze_and_match (src/app/services/matching_service.py lines 112-175):
clear the matches of the pivot need, short-circuit on an empty candidate
list, otherwise call Gemini once and process the response; a falsy response
(`None` or an empty container) logs the no-valid-matches diagnostic. -/
def analyze_and_match (db : DB) (need : Need) (all_volunteers : List Volunteer)
    (gemini : GeminiOutcome) (sg : EmailOracle) : EngineResult :=
  let db1 := delete_matches_for_need db need.id
  if all_volunteers.isEmpty then
    { db := db1, llm_calls := 0, warnings := [LogWarning.no_volunteers_for_need need.id],
      emails := [], error := none }
  else
    match call_gemini_api gemini with
    | some v =>
      if py_truthy v then
        match py_iter v with
        | Except.ok items =>
          let r := process_need_match_items db1 need sg items
          { db := r.db, llm_calls := 1, warnings := r.warnings, emails := r.emails,
            error := r.error }
        | Except.error e =>
          { db := db1, llm_calls := 1, warnings := [], emails := [], error := some e }
      else
        { db := db1, llm_calls := 1,
          warnings := [LogWarning.no_valid_matches_for_need need.id],
          emails := [], error := none }
    | none =>
      { db := db1, llm_calls := 1,
        warnings := [LogWarning.no_valid_matches_for_need need.id],
        emails := [], error := none }

/-- Loop body of `analyze_volunteer_against_all_needs`
(src/app/services/matching_service.py lines 228-246), mirror image of
`process_need_match_item` with the `need_id` key and `get_need`. -/
def process_volunteer_match_item (db : DB) (volunteer : Volunteer) (sg : EmailOracle)
    (item : JsonVal) : BatchResult :=
  match item with
  | JsonVal.jobj fields =>
    let need_id := py_dict_get fields "need_id"
    let match_details := py_dict_get fields "match_details"
    if py_isinstance_int need_id && py_isinstance_str match_details then
      match get_need db (py_to_int need_id) with
      | some need =>
        match create_match db volunteer.id (py_to_int need_id) (py_to_str match_details) with
        | Except.ok (db2, _row) =>
          { db := db2, warnings := [],
            emails := send_match_notification sg volunteer need (py_to_str match_details),
            error := none }
        | Except.error e => { db := db, warnings := [], emails := [], error := some e }
      | none =>
        { db := db,
          warnings := [LogWarning.nonexistent_need (py_to_int need_id) volunteer.id],
          emails := [], error := none }
    else
      { db := db, warnings := [LogWarning.invalid_match_data_for_volunteer volunteer.id],
        emails := [], error := none }
  | _ =>
    { db := db, warnings := [], emails := [],
      error := some (PyError.attributeError "object has no attribute get") }

/-- Response loop of `analyze_volunteer_against_all_needs`. -/
def process_volunteer_match_items (db : DB) (volunteer : Volunteer) (sg : EmailOracle) :
    List JsonVal → BatchResult
  | [] => { db := db, warnings := [], emails := [], error := none }
  | item :: rest =>
    let r := process_volunteer_match_item db volunteer sg item
    match r.error with
    | some e => { db := r.db, warnings := r.warnings, emails := r.emails, error := some e }
    | none =>
      let rs := process_volunteer_match_items r.db volunteer sg rest
      { db := rs.db, warnings := r.warnings ++ rs.warnings,
        emails := r.emails ++ rs.emails, error := rs.error }

/-- analyze_volunteer_against_all_needs (src/app/services/matching_service.py
lines 177-248), mirror image of `analyze_and_match`. -/
def analyze_volunteer_against_all_needs (db : DB) (volunteer : Volunteer)
    (all_needs : List Need) (gemini : GeminiOutcome) (sg : EmailOracle) : EngineResult :=
  let db1 := delete_matches_for_volunteer db volunteer.id
  if all_needs.isEmpty then
    { db := db1, llm_calls := 0,
      warnings := [LogWarning.no_needs_for_volunteer volunteer.id],
      emails := [], error := none }
  else
    match call_gemini_api gemini with
    | some v =>
      if py_truthy v then
        match py_iter v with
        | Except.ok items =>
          let r := process_volunteer_match_items db1 volunteer sg items
          { db := r.db, llm_calls := 1, warnings := r.warnings, emails := r.emails,
            error := r.error }
        | Except.error e =>
          { db := db1, llm_calls := 1, warnings := [], emails := [], error := some e }
      else
        { db := db1, llm_calls := 1,
          warnings := [LogWarning.no_valid_matches_for_volunteer volunteer.id],
          emails := [], error := none }
    | none =>
      { db := db1, llm_calls := 1,
        warnings := [LogWarning.no_valid_matches_for_volunteer volunteer.id],
        emails := [], error := none }

/-! The background trigger handlers (src/app/events/match_handlers.py).
Each handler opens its own session, re-fetches the entity by id, loads the
full counterpart listing with the default pagination arguments (skip=0,
limit=100) and runs the engine; a missing entity only logs a warning. -/

/-- The candidate listing fetched by `trigger_need_matching`
(src/app/events/match_handlers.py line 24): `crud_volunteer.get_volunteers(db)`
with the default arguments skip=0, limit=100. -/
def trigger_need_candidates (db : DB) : List Volunteer :=
  get_volunteers db 0 100

/-- The candidate listing fetched by `trigger_volunteer_matching`
(src/app/events/match_handlers.py line 42): `crud_need.get_needs(db)` with
the default arguments skip=0, limit=100. -/
def trigger_volunteer_candidates (db : DB) : List Need :=
  get_needs db 0 100

/-- trigger_need_matching (src/app/events/match_handlers.py lines 14-29). -/
def trigger_need_matching (db : DB) (need_id : Int) (gemini : GeminiOutcome)
    (sg : EmailOracle) : EngineResult :=
  match get_need db need_id with
  | some need => analyze_and_match db need (trigger_need_candidates db) gemini sg
  | none =>
    { db := db, llm_calls := 0, warnings := [LogWarning.need_not_found need_id],
      emails := [], error := none }

/-- trigger_volunteer_matching (src/app/events/match_handlers.py lines
32-47), as the one-argument coroutine the module declares. -/
def trigger_volunteer_matching (db : DB) (volunteer_id : Int) (gemini : GeminiOutcome)
    (sg : EmailOracle) : EngineResult :=
  match get_volunteer db volunteer_id with
  | some volunteer =>
    analyze_volunteer_against_all_needs db volunteer (trigger_volunteer_candidates db) gemini sg
  | none =>
    { db := db, llm_calls := 0, warnings := [LogWarning.volunteer_not_found volunteer_id],
      emails := [], error := none }

/-! Volunteer create/update (src/app/crud/crud_volunteer.py). -/

/-- Input schema `VolunteerCreate` (src/app/schemas/schemas.py lines 19-31). -/
structure VolunteerCreate where
  name : String
  email : String
  phone : Option String
  about_me : Option String
  skills : Option String
  volunteer_interests : Option String
  location : Option String
  availability : Option String
  password : String
deriving DecidableEq, Repr

/-- Abstract model of `get_password_hash` (passlib bcrypt,
src/app/utils/security.py): an injective tagging of the password. The hash
value itself plays no role in any verified claim. -/
def get_password_hash (password : String) : String :=
  "$2b$12$" ++ password

/-- The expression `match_handlers.trigger_volunteer_matching(db, db_volunteer)`
evaluated at the call sites src/app/crud/crud_volunteer.py lines 48 and 71.
The callee is declared as `async def trigger_volunteer_matching(volunteer_id: int)`
(src/app/events/match_handlers.py line 32), so binding two positional
arguments raises TypeError at the call site, before the coroutine body runs. -/
def call_trigger_volunteer_matching_with_db_and_entity : Except PyError Unit :=
  Except.error
    (PyError.typeError "trigger_volunteer_matching() takes 1 positional argument but 2 were given")

/-- create_volunteer (src/app/crud/crud_volunteer.py lines 29-53): build the
row (hashing the password, is_active=1), then inside `try`: add, commit
(IntegrityError on a duplicate email, the unique column), refresh, await the
matching trigger, return the row; `except IntegrityError` rolls back and
returns None. Any other exception raised inside the `try` block, such as the
TypeError from the trigger call, propagates to the caller. -/
def create_volunteer (db : DB) (volunteer : VolunteerCreate) :
    Except PyError (DB × Option Volunteer) :=
  let db_volunteer : Volunteer :=
    { id := db.next_volunteer_id, name := volunteer.name, email := volunteer.email,
      password := get_password_hash volunteer.password, phone := volunteer.phone,
      about_me := volunteer.about_me, skills := volunteer.skills,
      volunteer_interests := volunteer.volunteer_interests, location := volunteer.location,
      availability := volunteer.availability, is_active := 1 }
  if db.volunteers.any (fun w => w.email == volunteer.email) then
    Except.ok (db, none)
  else
    let db1 :=
      { db with volunteers := db.volunteers ++ [db_volunteer],
                next_volunteer_id := db.next_volunteer_id + 1 }
    match call_trigger_volunteer_matching_with_db_and_entity with
    | Except.ok _ => Except.ok (db1, some db_volunteer)
    | Except.error e => Except.error e

/-- The `setattr` update loop of update_volunteer (src/app/crud/crud_volunteer.py
lines 61-66): apply the submitted fields except the password, then re-hash
and store the password when it is truthy (non-empty). The pydantic
`exclude_unset` filter is modelled as every field being submitted. -/
def apply_volunteer_update (w : Volunteer) (u : VolunteerCreate) : Volunteer :=
  let w1 :=
    { w with name := u.name, email := u.email, phone := u.phone, about_me := u.about_me,
             skills := u.skills, volunteer_interests := u.volunteer_interests,
             location := u.location, availability := u.availability }
  if u.password.isEmpty then w1 else { w1 with password := get_password_hash u.password }

/-- update_volunteer (src/app/crud/crud_volunteer.py lines 56-74): fetch the
row by id (returning None when absent), apply the update, commit, refresh,
then await the matching trigger with no surrounding try/except, so the
TypeError from the trigger call propagates to the caller. -/
def update_volunteer (db : DB) (volunteer_id : Int) (volunteer : VolunteerCreate) :
    Except PyError (DB × Option Volunteer) :=
  match db.volunteers.find? (fun w => w.id == volunteer_id) with
  | none => Except.ok (db, none)
  | some db_volunteer =>
    let updated := apply_volunteer_update db_volunteer volunteer
    let db1 :=
      { db with volunteers :=
          db.volunteers.map (fun w => if w.id == volunteer_id then updated else w) }
    match call_trigger_volunteer_matching_with_db_and_entity with
    | Except.ok _ => Except.ok (db1, some updated)
    | Except.error e => Except.error e

/-! Concrete sample data used by counterexamples and witnesses. -/

/-- A volunteer with the given id and a distinct email address. -/
def sampleVolunteer (i : Int) : Volunteer :=
  { id := i, name := "Volunteer", email := "volunteer" ++ toString i ++ "@example.com",
    password := "pw", phone := none, about_me := none, skills := none,
    volunteer_interests := none, location := none, availability := none, is_active := 1 }

/-- A need with the given id. -/
def sampleNeed (i : Int) : Need :=
  { id := i, title := "Community Garden Cleanup", description := "Help the garden",
    required_tasks := none, required_skills := some "Gardening",
    num_volunteers_needed := 2, format := "in-person", location_details := none,
    contact_name := "Alex", contact_email := "contact" ++ toString i ++ "@example.com",
    contact_phone := none, owner_id := 1 }

/-- A stored match row between the given volunteer and need. -/
def sampleMatch (i volunteer_id need_id : Int) : VolunteerNeedMatch :=
  { id := i, volunteer_id := volunteer_id, need_id := need_id, match_details := "old match" }

/-- An email oracle whose provider accepts every message with status 202. -/
def sgAlwaysOk : EmailOracle := fun _ => Except.ok 202

/-! Helper lemmas about the embedded pipeline. -/

/-- Every call to `create_match` raises: the constructor keyword `created_at`
is not a mapped attribute of the `VolunteerNeedMatch` class, so the
declarative constructor raises TypeError before anything touches the
session. -/
theorem create_match_raises (db : DB) (volunteer_id need_id : Int) (match_details : String) :
    create_match db volunteer_id need_id match_details = Except.error created_at_type_error := rfl

/-- One item of a need-pivot response leaves the database unchanged: the only
branch that would insert a row calls `create_match`, which raises. -/
theorem process_need_match_item_db_eq (db : DB) (need : Need) (sg : EmailOracle)
    (item : JsonVal) : (process_need_match_item db need sg item).db = db := by
  cases item <;> simp only [process_need_match_item]
  case jobj fields =>
    split
    · rcases hv : get_volunteer db (py_to_int (py_dict_get fields "volunteer_id")) with _ | v
      · simp [hv]
      · simp [hv, create_match_raises]
    · rfl

/-- One item of a need-pivot response attempts no email sends: the
notification is dispatched only after a successful `create_match`. -/
theorem process_need_match_item_emails_nil (db : DB) (need : Need) (sg : EmailOracle)
    (item : JsonVal) : (process_need_match_item db need sg item).emails = [] := by
  cases item <;> simp only [process_need_match_item]
  case jobj fields =>
    split
    · rcases hv : get_volunteer db (py_to_int (py_dict_get fields "volunteer_id")) with _ | v
      · simp [hv]
      · simp [hv, create_match_raises]
    · rfl

/-- Item processing does not depend on the email oracle. -/
theorem process_need_match_item_oracle_irrel (db : DB) (need : Need) (sg sg' : EmailOracle)
    (item : JsonVal) :
    process_need_match_item db need sg item = process_need_match_item db need sg' item := by
  cases item <;> simp only [process_need_match_item]
  case jobj fields =>
    split
    · rcases hv : get_volunteer db (py_to_int (py_dict_get fields "volunteer_id")) with _ | v
      · simp [hv]
      · simp [hv, create_match_raises]
    · rfl

/-- A whole need-pivot batch leaves the database unchanged. -/
theorem process_need_match_items_db_eq (db : DB) (need : Need) (sg : EmailOracle)
    (items : List JsonVal) : (process_need_match_items db need sg items).db = db := by
  induction items generalizing db with
  | nil => rfl
  | cons item rest ih =>
    simp only [process_need_match_items]
    rcases herr : (process_need_match_item db need sg item).error with _ | e
    · simp only [herr]
      rw [ih (process_need_match_item db need sg item).db]
      exact process_need_match_item_db_eq db need sg item
    · simp only [herr]
      exact process_need_match_item_db_eq db need sg item

/-- A whole need-pivot batch attempts no email sends. -/
theorem process_need_match_items_emails_nil (db : DB) (need : Need) (sg : EmailOracle)
    (items : List JsonVal) : (process_need_match_items db need sg items).emails = [] := by
  induction items generalizing db with
  | nil => rfl
  | cons item rest ih =>
    simp only [process_need_match_items]
    rcases herr : (process_need_match_item db need sg item).error with _ | e
    · simp only [herr, process_need_match_item_emails_nil, List.nil_append]
      exact ih (process_need_match_item db need sg item).db
    · simp only [herr]
      exact process_need_match_item_emails_nil db need sg item

/-- Batch processing does not depend on the email oracle. -/
theorem process_need_match_items_oracle_irrel (db : DB) (need : Need) (sg sg' : EmailOracle)
    (items : List JsonVal) :
    process_need_match_items db need sg items = process_need_match_items db need sg' items := by
  induction items generalizing db with
  | nil => rfl
  | cons item rest ih =>
    simp only [process_need_match_items]
    rw [process_need_match_item_oracle_irrel db need sg sg' item]
    rcases herr : (process_need_match_item db need sg' item).error with _ | e
    · simp only [herr]
      rw [ih (process_need_match_item db need sg' item).db]
    · simp only [herr]

/-- The database produced by a need-pivot run is always exactly the cleared
database: the clear happens unconditionally at the start, and the broken
`create_match` prevents any insert. -/
theorem analyze_and_match_db_eq (db : DB) (need : Need) (vols : List Volunteer)
    (g : GeminiOutcome) (sg : EmailOracle) :
    (analyze_and_match db need vols g sg).db = delete_matches_for_need db need.id := by
  unfold analyze_and_match
  split
  · rfl
  · split
    · split
      · split
        · exact process_need_match_items_db_eq _ need sg _
        · rfl
      · rfl
    · rfl

/-- A need-pivot run attempts no email sends (the broken `create_match`
stops every item before its dispatch). -/
theorem analyze_and_match_emails_nil (db : DB) (need : Need) (vols : List Volunteer)
    (g : GeminiOutcome) (sg : EmailOracle) :
    (analyze_and_match db need vols g sg).emails = [] := by
  unfold analyze_and_match
  split
  · rfl
  · split
    · split
      · split
        · exact process_need_match_items_emails_nil _ need sg _
        · rfl
      · rfl
    · rfl

/-- A need-pivot run does not depend on the email oracle. -/
theorem analyze_and_match_oracle_irrel (db : DB) (need : Need) (vols : List Volunteer)
    (g : GeminiOutcome) (sg sg' : EmailOracle) :
    analyze_and_match db need vols g sg = analyze_and_match db need vols g sg' := by
  unfold analyze_and_match
  split
  · rfl
  · split
    · split
      · split
        · simp only [process_need_match_items_oracle_irrel _ need sg sg']
        · rfl
      · rfl
    · rfl

/-- One item of a volunteer-pivot response leaves the database unchanged. -/
theorem process_volunteer_match_item_db_eq (db : DB) (volunteer : Volunteer) (sg : EmailOracle)
    (item : JsonVal) : (process_volunteer_match_item db volunteer sg item).db = db := by
  cases item <;> simp only [process_volunteer_match_item]
  case jobj fields =>
    split
    · rcases hn : get_need db (py_to_int (py_dict_get fields "need_id")) with _ | n
      · simp [hn]
      · simp [hn, create_match_raises]
    · rfl

/-- One item of a volunteer-pivot response attempts no email sends. -/
theorem process_volunteer_match_item_emails_nil (db : DB) (volunteer : Volunteer)
    (sg : EmailOracle) (item : JsonVal) :
    (process_volunteer_match_item db volunteer sg item).emails = [] := by
  cases item <;> simp only [process_volunteer_match_item]
  case jobj fields =>
    split
    · rcases hn : get_need db (py_to_int (py_dict_get fields "need_id")) with _ | n
      · simp [hn]
      · simp [hn, create_match_raises]
    · rfl

/-- Volunteer-pivot item processing does not depend on the email oracle. -/
theorem process_volunteer_match_item_oracle_irrel (db : DB) (volunteer : Volunteer)
    (sg sg' : EmailOracle) (item : JsonVal) :
    process_volunteer_match_item db volunteer sg item =
      process_volunteer_match_item db volunteer sg' item := by
  cases item <;> simp only [process_volunteer_match_item]
  case jobj fields =>
    split
    · rcases hn : get_need db (py_to_int (py_dict_get fields "need_id")) with _ | n
      · simp [hn]
      · simp [hn, create_match_raises]
    · rfl

/-- A whole volunteer-pivot batch leaves the database unchanged. -/
theorem process_volunteer_match_items_db_eq (db : DB) (volunteer : Volunteer) (sg : EmailOracle)
    (items : List JsonVal) : (process_volunteer_match_items db volunteer sg items).db = db := by
  induction items generalizing db with
  | nil => rfl
  | cons item rest ih =>
    simp only [process_volunteer_match_items]
    rcases herr : (process_volunteer_match_item db volunteer sg item).error with _ | e
    · simp only [herr]
      rw [ih (process_volunteer_match_item db volunteer sg item).db]
      exact process_volunteer_match_item_db_eq db volunteer sg item
    · simp only [herr]
      exact process_volunteer_match_item_db_eq db volunteer sg item

/-- A whole volunteer-pivot batch attempts no email sends. -/
theorem process_volunteer_match_items_emails_nil (db : DB) (volunteer : Volunteer)
    (sg : EmailOracle) (items : List JsonVal) :
    (process_volunteer_match_items db volunteer sg items).emails = [] := by
  induction items generalizing db with
  | nil => rfl
  | cons item rest ih =>
    simp only [process_volunteer_match_items]
    rcases herr : (process_volunteer_match_item db volunteer sg item).error with _ | e
    · simp only [herr, process_volunteer_match_item_emails_nil, List.nil_append]
      exact ih (process_volunteer_match_item db volunteer sg item).db
    · simp only [herr]
      exact process_volunteer_match_item_emails_nil db volunteer sg item

/-- Volunteer-pivot batch processing does not depend on the email oracle. -/
theorem process_volunteer_match_items_oracle_irrel (db : DB) (volunteer : Volunteer)
    (sg sg' : EmailOracle) (items : List JsonVal) :
    process_volunteer_match_items db volunteer sg items =
      process_volunteer_match_items db volunteer sg' items := by
  induction items generalizing db with
  | nil => rfl
  | cons item rest ih =>
    simp only [process_volunteer_match_items]
    rw [process_volunteer_match_item_oracle_irrel db volunteer sg sg' item]
    rcases herr : (process_volunteer_match_item db volunteer sg' item).error with _ | e
    · simp only [herr]
      rw [ih (process_volunteer_match_item db volunteer sg' item).db]
    · simp only [herr]

/-- The database produced by a volunteer-pivot run is always exactly the
cleared database. -/
theorem analyze_volunteer_db_eq (db : DB) (volunteer : Volunteer) (needs : List Need)
    (g : GeminiOutcome) (sg : EmailOracle) :
    (analyze_volunteer_against_all_needs db volunteer needs g sg).db =
      delete_matches_for_volunteer db volunteer.id := by
  unfold analyze_volunteer_against_all_needs
  split
  · rfl
  · split
    · split
      · split
        · exact process_volunteer_match_items_db_eq _ volunteer sg _
        · rfl
      · rfl
    · rfl

/-- A volunteer-pivot run attempts no email sends. -/
theorem analyze_volunteer_emails_nil (db : DB) (volunteer : Volunteer) (needs : List Need)
    (g : GeminiOutcome) (sg : EmailOracle) :
    (analyze_volunteer_against_all_needs db volunteer needs g sg).emails = [] := by
  unfold analyze_volunteer_against_all_needs
  split
  · rfl
  · split
    · split
      · split
        · exact process_volunteer_match_items_emails_nil _ volunteer sg _
        · rfl
      · rfl
    · rfl

/-- A volunteer-pivot run does not depend on the email oracle. -/
theorem analyze_volunteer_oracle_irrel (db : DB) (volunteer : Volunteer) (needs : List Need)
    (g : GeminiOutcome) (sg sg' : EmailOracle) :
    analyze_volunteer_against_all_needs db volunteer needs g sg =
      analyze_volunteer_against_all_needs db volunteer needs g sg' := by
  unfold analyze_volunteer_against_all_needs
  split
  · rfl
  · split
    · split
      · split
        · simp only [process_volunteer_match_items_oracle_irrel _ volunteer sg sg']
        · rfl
      · rfl
    · rfl

/-- True when the interaction with Gemini fails: the API call raised, the
response lacked the expected candidate/content/parts structure, or the
returned text was not valid JSON. In all three cases the wrapper catches the
problem and returns None. -/
def gemini_call_fails : GeminiOutcome → Bool
  | GeminiOutcome.content (Except.ok _) => false
  | _ => true

/-- An outcome where the provider returns the JSON text of an empty array. -/
def gemini_empty_response : GeminiOutcome :=
  GeminiOutcome.content (Except.ok (JsonVal.jarr []))

/-- True when the run sees no usable matches: the wrapper returned None, or
the decoded response is falsy (such as an empty array). -/
def gemini_no_result (g : GeminiOutcome) : Bool :=
  match call_gemini_api g with
  | none => true
  | some v => !py_truthy v

/-- Filtering with a predicate directly after filtering with its negation
yields the empty list. -/
theorem filter_after_filter_not {α : Type} (p : α → Bool) (l : List α) :
    (l.filter (fun a => !(p a))).filter p = [] := by
  induction l with
  | nil => rfl
  | cons a t ih => cases hp : p a <;> simp [List.filter_cons, hp, ih]

/-- The pivot need has zero match rows right after its clear step. -/
theorem get_matches_for_need_delete (db : DB) (nid : Int) :
    get_matches_for_need (delete_matches_for_need db nid) nid = [] := by
  unfold get_matches_for_need delete_matches_for_need
  exact filter_after_filter_not (fun m => m.need_id == nid) db.volunteer_need_matches

/-- The pivot volunteer has zero match rows right after its clear step. -/
theorem get_matches_for_volunteer_delete (db : DB) (vid : Int) :
    get_matches_for_volunteer (delete_matches_for_volunteer db vid) vid = [] := by
  unfold get_matches_for_volunteer delete_matches_for_volunteer
  exact filter_after_filter_not (fun m => m.volunteer_id == vid) db.volunteer_need_matches

/-- Filtering with the negation of a predicate is idempotent. -/
theorem filter_not_idem {α : Type} (p : α → Bool) (l : List α) :
    (l.filter (fun a => !(p a))).filter (fun a => !(p a)) = l.filter (fun a => !(p a)) := by
  induction l with
  | nil => rfl
  | cons a t ih => cases hp : p a <;> simp [List.filter_cons, hp, ih]

/-- When Gemini produced no usable result, a need-pivot run terminates
normally. -/
theorem analyze_and_match_error_none_of_no_result (db : DB) (need : Need)
    (vols : List Volunteer) (g : GeminiOutcome) (sg : EmailOracle)
    (h : gemini_no_result g = true) :
    (analyze_and_match db need vols g sg).error = none := by
  unfold analyze_and_match
  split
  · rfl
  · unfold gemini_no_result at h
    rcases hg : call_gemini_api g with _ | v
    · simp only [hg]
    · rw [hg] at h
      have h2 : (!py_truthy v) = true := h
      have ht : py_truthy v = false := by
        cases hpt : py_truthy v
        · rfl
        · rw [hpt] at h2
          exact absurd h2 (by decide)
      simp only [hg, ht]
      rfl

/-- When Gemini produced no usable result, a volunteer-pivot run terminates
normally. -/
theorem analyze_volunteer_error_none_of_no_result (db : DB) (volunteer : Volunteer)
    (needs : List Need) (g : GeminiOutcome) (sg : EmailOracle)
    (h : gemini_no_result g = true) :
    (analyze_volunteer_against_all_needs db volunteer needs g sg).error = none := by
  unfold analyze_volunteer_against_all_needs
  split
  · rfl
  · unfold gemini_no_result at h
    rcases hg : call_gemini_api g with _ | v
    · simp only [hg]
    · rw [hg] at h
      have h2 : (!py_truthy v) = true := h
      have ht : py_truthy v = false := by
        cases hpt : py_truthy v
        · rfl
        · rw [hpt] at h2
          exact absurd h2 (by decide)
      simp only [hg, ht]
      rfl

/-! Claim theorems. -/

/-- C1: for every pivot entity (need or volunteer) and every pre-existing
set of stored matches, a matching run deletes all existing match rows for
that pivot before the LLM is invoked, so when the Gemini call fails or
returns nothing the pivot is left with exactly zero match rows rather than
its old ones, and the run terminates normally; stale matches never survive
a re-run. -/
theorem matching_run_clears_pivot_before_llm (db : DB) (need : Need) (volunteer : Volunteer)
    (vols : List Volunteer) (needs : List Need) (g : GeminiOutcome) (sg : EmailOracle)
    (h : gemini_no_result g = true) :
    (analyze_and_match db need vols g sg).db.volunteer_need_matches
        = db.volunteer_need_matches.filter (fun m => !(m.need_id == need.id))
    ∧ get_matches_for_need (analyze_and_match db need vols g sg).db need.id = []
    ∧ (analyze_and_match db need vols g sg).error = none
    ∧ (analyze_volunteer_against_all_needs db volunteer needs g sg).db.volunteer_need_matches
        = db.volunteer_need_matches.filter (fun m => !(m.volunteer_id == volunteer.id))
    ∧ get_matches_for_volunteer (analyze_volunteer_against_all_needs db volunteer needs g sg).db
        volunteer.id = []
    ∧ (analyze_volunteer_against_all_needs db volunteer needs g sg).error = none := by
  refine ⟨?_, ?_, ?_, ?_, ?_, ?_⟩
  · rw [analyze_and_match_db_eq]
    rfl
  · rw [analyze_and_match_db_eq]
    exact get_matches_for_need_delete db need.id
  · exact analyze_and_match_error_none_of_no_result db need vols g sg h
  · rw [analyze_volunteer_db_eq]
    rfl
  · rw [analyze_volunteer_db_eq]
    exact get_matches_for_volunteer_delete db volunteer.id
  · exact analyze_volunteer_error_none_of_no_result db volunteer needs g sg h

/-- A database seeded with one volunteer, one need, and two stored matches
for that volunteer, one of them with the pivot need. -/
def dbSeeded : DB :=
  { volunteers := [sampleVolunteer 1], needs := [sampleNeed 10],
    volunteer_need_matches := [sampleMatch 1 1 10, sampleMatch 2 1 11],
    next_volunteer_id := 2, next_match_id := 3 }

/-- Witness for C1 at a failing Gemini call over a seeded database. -/
theorem matching_run_clears_pivot_before_llm_witness :
    gemini_no_result (GeminiOutcome.apiError "connection reset") = true
    ∧ ((analyze_and_match dbSeeded (sampleNeed 10) [sampleVolunteer 1]
          (GeminiOutcome.apiError "connection reset") sgAlwaysOk).db.volunteer_need_matches
        = dbSeeded.volunteer_need_matches.filter (fun m => !(m.need_id == (sampleNeed 10).id))
      ∧ get_matches_for_need (analyze_and_match dbSeeded (sampleNeed 10) [sampleVolunteer 1]
          (GeminiOutcome.apiError "connection reset") sgAlwaysOk).db (sampleNeed 10).id = []
      ∧ (analyze_and_match dbSeeded (sampleNeed 10) [sampleVolunteer 1]
          (GeminiOutcome.apiError "connection reset") sgAlwaysOk).error = none
      ∧ (analyze_volunteer_against_all_needs dbSeeded (sampleVolunteer 1) [sampleNeed 10]
          (GeminiOutcome.apiError "connection reset") sgAlwaysOk).db.volunteer_need_matches
        = dbSeeded.volunteer_need_matches.filter (fun m => !(m.volunteer_id == (sampleVolunteer 1).id))
      ∧ get_matches_for_volunteer (analyze_volunteer_against_all_needs dbSeeded (sampleVolunteer 1)
          [sampleNeed 10] (GeminiOutcome.apiError "connection reset") sgAlwaysOk).db
          (sampleVolunteer 1).id = []
      ∧ (analyze_volunteer_against_all_needs dbSeeded (sampleVolunteer 1) [sampleNeed 10]
          (GeminiOutcome.apiError "connection reset") sgAlwaysOk).error = none) :=
  ⟨rfl, matching_run_clears_pivot_before_llm dbSeeded (sampleNeed 10) (sampleVolunteer 1)
    [sampleVolunteer 1] [sampleNeed 10] (GeminiOutcome.apiError "connection reset") sgAlwaysOk rfl⟩

/-- C2: the claim states that the Match Store record operation inserts one
row holding the given values and fails only with a persistence error on a
constraint violation. On this code every call instead raises TypeError from
the VolunteerNeedMatch constructor, because create_match passes the keyword
created_at while models.py maps no such attribute; no row is ever inserted.
The migration 3c1e4e2b4f90 (which adds the created_at column) and the test
suite (which asserts inserted rows after create_match) show the claim is the
intent and the mapped class is the slip. -/
theorem record_raises_type_error_on_every_call (db : DB) (volunteer_id need_id : Int)
    (match_details : String) :
    create_match db volunteer_id need_id match_details = Except.error created_at_type_error
    ∧ created_at_type_error
        = PyError.typeError "created_at is an invalid keyword argument for VolunteerNeedMatch" :=
  ⟨rfl, rfl⟩

/-- A database holding exactly one volunteer with id 1. -/
def dbOneVolunteer : DB :=
  { volunteers := [sampleVolunteer 1], needs := [], volunteer_need_matches := [],
    next_volunteer_id := 2, next_match_id := 1 }

/-- A registration input whose email is not yet taken in `dbOneVolunteer`. -/
def freshVolunteerInput : VolunteerCreate :=
  { name := "New Volunteer", email := "new@example.com", phone := none, about_me := none,
    skills := none, volunteer_interests := none, location := none, availability := none,
    password := "secret" }

/-- C3: the claim states that no error raised inside the matching pipeline
(including errors arising from invoking the trigger itself) propagates to
the caller of a volunteer create/update. On this code both operations await
`trigger_volunteer_matching(db, db_volunteer)` although the handler is
declared with the single parameter volunteer_id, so every create that
commits and every update of an existing volunteer raises TypeError to the
caller (`except IntegrityError` does not catch it). The test suite expects
the trigger to be scheduled as a background task with the volunteer id, so
the claim is the intent and the call site is the slip. -/
theorem volunteer_create_update_propagate_trigger_error (db : DB) (v u : VolunteerCreate)
    (vid : Int) :
    ((db.volunteers.any (fun w => w.email == v.email)) = false →
      create_volunteer db v = Except.error
        (PyError.typeError "trigger_volunteer_matching() takes 1 positional argument but 2 were given"))
    ∧ ((db.volunteers.find? (fun w => w.id == vid)).isSome = true →
      update_volunteer db vid u = Except.error
        (PyError.typeError "trigger_volunteer_matching() takes 1 positional argument but 2 were given")) := by
  constructor
  · intro h
    simp [create_volunteer, h, call_trigger_volunteer_matching_with_db_and_entity]
  · intro h
    rcases hf : db.volunteers.find? (fun w => w.id == vid) with _ | w
    · rw [hf] at h
      exact absurd h (by decide)
    · simp [update_volunteer, hf, call_trigger_volunteer_matching_with_db_and_entity]

/-- Witness for C3: a concrete fresh registration and a concrete update of
the stored volunteer both raise the arity TypeError. -/
theorem volunteer_create_update_propagate_trigger_error_witness :
    (dbOneVolunteer.volunteers.any (fun w => w.email == freshVolunteerInput.email)) = false
    ∧ (dbOneVolunteer.volunteers.find? (fun w => w.id == (1 : Int))).isSome = true
    ∧ create_volunteer dbOneVolunteer freshVolunteerInput = Except.error
        (PyError.typeError "trigger_volunteer_matching() takes 1 positional argument but 2 were given")
    ∧ update_volunteer dbOneVolunteer 1 freshVolunteerInput = Except.error
        (PyError.typeError "trigger_volunteer_matching() takes 1 positional argument but 2 were given") :=
  ⟨rfl, rfl,
    (volunteer_create_update_propagate_trigger_error dbOneVolunteer freshVolunteerInput
      freshVolunteerInput 1).1 rfl,
    (volunteer_create_update_propagate_trigger_error dbOneVolunteer freshVolunteerInput
      freshVolunteerInput 1).2 rfl⟩

/-- A database holding volunteer 1 and need 10 and no matches. -/
def dbHallu : DB :=
  { volunteers := [sampleVolunteer 1], needs := [sampleNeed 10], volunteer_need_matches := [],
    next_volunteer_id := 2, next_match_id := 1 }

/-- A Gemini response holding one valid candidate id (1) and one
non-existent id (999), valid item first. -/
def geminiHalluValidFirst : GeminiOutcome :=
  GeminiOutcome.content (Except.ok (JsonVal.jarr
    [JsonVal.jobj [("volunteer_id", JsonVal.jint 1),
                   ("match_details", JsonVal.jstr "Skills align well")],
     JsonVal.jobj [("volunteer_id", JsonVal.jint 999),
                   ("match_details", JsonVal.jstr "Invented volunteer")]]))

/-- The same response with the non-existent id first. -/
def geminiHalluInvalidFirst : GeminiOutcome :=
  GeminiOutcome.content (Except.ok (JsonVal.jarr
    [JsonVal.jobj [("volunteer_id", JsonVal.jint 999),
                   ("match_details", JsonVal.jstr "Invented volunteer")],
     JsonVal.jobj [("volunteer_id", JsonVal.jint 1),
                   ("match_details", JsonVal.jstr "Skills align well")]]))

/-- C4: the claim states that a response with one valid and one non-existent
id produces exactly one match row plus a warning naming the invented id. On
this code the run over that response creates zero match rows: the valid item
reaches create_match, which raises the created_at TypeError; with the valid
item first the run aborts before even inspecting the invented id, and with
the invented id first the hallucination guard does fire (warning naming id
999 and pivot 10, no row referencing 999) but the valid item still raises
instead of being persisted. The resolution guard itself matches the claim;
the persistence half fails through the crud_match slip, which the test suite
shows is not intended. -/
theorem hallucination_scenario_creates_no_row :
    (analyze_and_match dbHallu (sampleNeed 10) [sampleVolunteer 1]
        geminiHalluValidFirst sgAlwaysOk).db.volunteer_need_matches = []
    ∧ (analyze_and_match dbHallu (sampleNeed 10) [sampleVolunteer 1]
        geminiHalluValidFirst sgAlwaysOk).warnings = []
    ∧ (analyze_and_match dbHallu (sampleNeed 10) [sampleVolunteer 1]
        geminiHalluValidFirst sgAlwaysOk).error = some created_at_type_error
    ∧ (analyze_and_match dbHallu (sampleNeed 10) [sampleVolunteer 1]
        geminiHalluInvalidFirst sgAlwaysOk).db.volunteer_need_matches = []
    ∧ (analyze_and_match dbHallu (sampleNeed 10) [sampleVolunteer 1]
        geminiHalluInvalidFirst sgAlwaysOk).warnings
      = [LogWarning.nonexistent_volunteer 999 10]
    ∧ (analyze_and_match dbHallu (sampleNeed 10) [sampleVolunteer 1]
        geminiHalluInvalidFirst sgAlwaysOk).error = some created_at_type_error := by
  refine ⟨?_, ?_, ?_, ?_, ?_, ?_⟩ <;> rfl

/-- A database holding volunteer 1 and need 20 and no matches. -/
def dbEmptyDetails : DB :=
  { volunteers := [sampleVolunteer 1], needs := [sampleNeed 20], volunteer_need_matches := [],
    next_volunteer_id := 2, next_match_id := 1 }

/-- A Gemini response whose single item has a valid id and an empty-string
match_details. -/
def geminiEmptyDetails : GeminiOutcome :=
  GeminiOutcome.content (Except.ok (JsonVal.jarr
    [JsonVal.jobj [("volunteer_id", JsonVal.jint 1), ("match_details", JsonVal.jstr "")]]))

/-- C5 counterexample: the claim states that an item whose match_details is
not a non-empty string is skipped with a logged warning and creates no match
row. The empty string is not a non-empty string, yet the code accepts it:
`isinstance(match_details, str)` holds for "", so the run logs no warning at
all and passes the item on to resolution and persistence (where it hits the
broken store) instead of skipping it. -/
theorem empty_match_details_item_not_skipped :
    py_isinstance_str (some (JsonVal.jstr "")) = true
    ∧ (analyze_and_match dbEmptyDetails (sampleNeed 20) [sampleVolunteer 1]
        geminiEmptyDetails sgAlwaysOk).warnings = []
    ∧ (analyze_and_match dbEmptyDetails (sampleNeed 20) [sampleVolunteer 1]
        geminiEmptyDetails sgAlwaysOk).error = some created_at_type_error :=
  ⟨rfl, rfl, rfl⟩

/-- C5 amended: an item whose id field fails the Python integer check (where
booleans count as integers) or whose match_details is not a string — the
empty string is accepted — is skipped with a logged warning naming the
pivot, creates no match row and sends no email, while the remaining items of
the array are still processed exactly as they would be without it. -/
theorem malformed_item_skipped_and_batch_continues (db : DB) (need : Need)
    (volunteer : Volunteer) (sg : EmailOracle) (fields : List (String × JsonVal))
    (rest : List JsonVal)
    (hneed : (py_isinstance_int (py_dict_get fields "volunteer_id")
        && py_isinstance_str (py_dict_get fields "match_details")) = false)
    (hvol : (py_isinstance_int (py_dict_get fields "need_id")
        && py_isinstance_str (py_dict_get fields "match_details")) = false) :
    process_need_match_items db need sg (JsonVal.jobj fields :: rest)
      = { db := (process_need_match_items db need sg rest).db,
          warnings := LogWarning.invalid_match_data_for_need need.id
            :: (process_need_match_items db need sg rest).warnings,
          emails := (process_need_match_items db need sg rest).emails,
          error := (process_need_match_items db need sg rest).error }
    ∧ process_volunteer_match_items db volunteer sg (JsonVal.jobj fields :: rest)
      = { db := (process_volunteer_match_items db volunteer sg rest).db,
          warnings := LogWarning.invalid_match_data_for_volunteer volunteer.id
            :: (process_volunteer_match_items db volunteer sg rest).warnings,
          emails := (process_volunteer_match_items db volunteer sg rest).emails,
          error := (process_volunteer_match_items db volunteer sg rest).error } := by
  constructor
  · simp only [process_need_match_items, process_need_match_item, hneed]
    rfl
  · simp only [process_volunteer_match_items, process_volunteer_match_item, hvol]
    rfl

/-- The spec scenario for C5: one item missing match_details followed by one
well-formed item. -/
def malformedItemFields : List (String × JsonVal) :=
  [("volunteer_id", JsonVal.jint 1)]

/-- The well-formed companion item of the C5 scenario. -/
def wellFormedItem : JsonVal :=
  JsonVal.jobj [("volunteer_id", JsonVal.jint 1), ("match_details", JsonVal.jstr "Good fit")]

/-- Witness for the amended C5 over the spec scenario: with one item missing
match_details and one well-formed item, the malformed item contributes only
its warning and the well-formed item is processed as the rest of the
batch. -/
theorem malformed_item_skipped_and_batch_continues_witness :
    (py_isinstance_int (py_dict_get malformedItemFields "volunteer_id")
        && py_isinstance_str (py_dict_get malformedItemFields "match_details")) = false
    ∧ (py_isinstance_int (py_dict_get malformedItemFields "need_id")
        && py_isinstance_str (py_dict_get malformedItemFields "match_details")) = false
    ∧ process_need_match_items dbEmptyDetails (sampleNeed 20) sgAlwaysOk
        (JsonVal.jobj malformedItemFields :: [wellFormedItem])
      = { db := (process_need_match_items dbEmptyDetails (sampleNeed 20) sgAlwaysOk
            [wellFormedItem]).db,
          warnings := LogWarning.invalid_match_data_for_need (sampleNeed 20).id
            :: (process_need_match_items dbEmptyDetails (sampleNeed 20) sgAlwaysOk
              [wellFormedItem]).warnings,
          emails := (process_need_match_items dbEmptyDetails (sampleNeed 20) sgAlwaysOk
            [wellFormedItem]).emails,
          error := (process_need_match_items dbEmptyDetails (sampleNeed 20) sgAlwaysOk
            [wellFormedItem]).error } :=
  ⟨rfl, rfl,
    (malformed_item_skipped_and_batch_continues dbEmptyDetails (sampleNeed 20)
      (sampleVolunteer 1) sgAlwaysOk malformedItemFields [wellFormedItem] rfl rfl).1⟩

/-- C6: for every failure of the LLM call (transport or provider error,
unparseable JSON, structurally unexpected response) the wrapper catches the
error and returns None, and the engine then terminates the run for that
pivot exactly as if the model had returned no matches: the result is
literally equal to the result on an empty-array response, no exception
escapes the engine and the pivot ends the run with zero rows. -/
theorem llm_failure_treated_as_no_matches (g : GeminiOutcome) (db : DB) (need : Need)
    (volunteer : Volunteer) (vols : List Volunteer) (needs : List Need) (sg : EmailOracle)
    (h : gemini_call_fails g = true) :
    call_gemini_api g = none
    ∧ analyze_and_match db need vols g sg
        = analyze_and_match db need vols gemini_empty_response sg
    ∧ analyze_volunteer_against_all_needs db volunteer needs g sg
        = analyze_volunteer_against_all_needs db volunteer needs gemini_empty_response sg
    ∧ (analyze_and_match db need vols g sg).error = none
    ∧ get_matches_for_need (analyze_and_match db need vols g sg).db need.id = []
    ∧ (analyze_volunteer_against_all_needs db volunteer needs g sg).error = none
    ∧ get_matches_for_volunteer (analyze_volunteer_against_all_needs db volunteer needs g sg).db
        volunteer.id = [] := by
  have hnone : call_gemini_api g = none := by
    cases g with
    | content decoded =>
      cases decoded with
      | ok v => exact absurd h (by simp [gemini_call_fails])
      | error e => rfl
    | emptyContent => rfl
    | apiError msg => rfl
  have hres : gemini_no_result g = true := by
    unfold gemini_no_result
    rw [hnone]
  refine ⟨hnone, ?_, ?_, ?_, ?_, ?_, ?_⟩
  · unfold analyze_and_match
    rw [hnone]
    rfl
  · unfold analyze_volunteer_against_all_needs
    rw [hnone]
    rfl
  · exact analyze_and_match_error_none_of_no_result db need vols g sg hres
  · rw [analyze_and_match_db_eq]
    exact get_matches_for_need_delete db need.id
  · exact analyze_volunteer_error_none_of_no_result db volunteer needs g sg hres
  · rw [analyze_volunteer_db_eq]
    exact get_matches_for_volunteer_delete db volunteer.id

/-- Witness for C6 at an unparseable response over the seeded database. -/
theorem llm_failure_treated_as_no_matches_witness :
    gemini_call_fails (GeminiOutcome.content (Except.error "invalid json")) = true
    ∧ (call_gemini_api (GeminiOutcome.content (Except.error "invalid json")) = none
      ∧ analyze_and_match dbSeeded (sampleNeed 10) [sampleVolunteer 1]
          (GeminiOutcome.content (Except.error "invalid json")) sgAlwaysOk
        = analyze_and_match dbSeeded (sampleNeed 10) [sampleVolunteer 1]
          gemini_empty_response sgAlwaysOk
      ∧ analyze_volunteer_against_all_needs dbSeeded (sampleVolunteer 1) [sampleNeed 10]
          (GeminiOutcome.content (Except.error "invalid json")) sgAlwaysOk
        = analyze_volunteer_against_all_needs dbSeeded (sampleVolunteer 1) [sampleNeed 10]
          gemini_empty_response sgAlwaysOk
      ∧ (analyze_and_match dbSeeded (sampleNeed 10) [sampleVolunteer 1]
          (GeminiOutcome.content (Except.error "invalid json")) sgAlwaysOk).error = none
      ∧ get_matches_for_need (analyze_and_match dbSeeded (sampleNeed 10) [sampleVolunteer 1]
          (GeminiOutcome.content (Except.error "invalid json")) sgAlwaysOk).db
          (sampleNeed 10).id = []
      ∧ (analyze_volunteer_against_all_needs dbSeeded (sampleVolunteer 1) [sampleNeed 10]
          (GeminiOutcome.content (Except.error "invalid json")) sgAlwaysOk).error = none
      ∧ get_matches_for_volunteer (analyze_volunteer_against_all_needs dbSeeded
          (sampleVolunteer 1) [sampleNeed 10]
          (GeminiOutcome.content (Except.error "invalid json")) sgAlwaysOk).db
          (sampleVolunteer 1).id = []) :=
  ⟨rfl, llm_failure_treated_as_no_matches (GeminiOutcome.content (Except.error "invalid json"))
    dbSeeded (sampleNeed 10) (sampleVolunteer 1) [sampleVolunteer 1] [sampleNeed 10]
    sgAlwaysOk rfl⟩

/-- C7: a matching run over an empty candidate list makes zero LLM calls,
creates zero match rows and sends no emails, while still deleting every
pre-existing match of the pivot; symmetric in the two directions. -/
theorem empty_candidates_short_circuit (db : DB) (need : Need) (volunteer : Volunteer)
    (g : GeminiOutcome) (sg : EmailOracle) :
    (analyze_and_match db need [] g sg).llm_calls = 0
    ∧ (analyze_and_match db need [] g sg).db.volunteer_need_matches
        = db.volunteer_need_matches.filter (fun m => !(m.need_id == need.id))
    ∧ get_matches_for_need (analyze_and_match db need [] g sg).db need.id = []
    ∧ (analyze_and_match db need [] g sg).emails = []
    ∧ (analyze_and_match db need [] g sg).error = none
    ∧ (analyze_volunteer_against_all_needs db volunteer [] g sg).llm_calls = 0
    ∧ (analyze_volunteer_against_all_needs db volunteer [] g sg).db.volunteer_need_matches
        = db.volunteer_need_matches.filter (fun m => !(m.volunteer_id == volunteer.id))
    ∧ get_matches_for_volunteer (analyze_volunteer_against_all_needs db volunteer [] g sg).db
        volunteer.id = []
    ∧ (analyze_volunteer_against_all_needs db volunteer [] g sg).emails = []
    ∧ (analyze_volunteer_against_all_needs db volunteer [] g sg).error = none := by
  refine ⟨rfl, rfl, ?_, rfl, rfl, rfl, rfl, ?_, rfl, rfl⟩
  · exact get_matches_for_need_delete db need.id
  · exact get_matches_for_volunteer_delete db volunteer.id

/-- A repository state holding 101 volunteers with ids 1 through 101. -/
def dbManyVolunteers : DB :=
  { volunteers := (List.range 101).map (fun k => sampleVolunteer (Int.ofNat k + 1)),
    needs := [], volunteer_need_matches := [], next_volunteer_id := 102, next_match_id := 1 }

/-- C8 counterexample: with 101 stored volunteers, the candidate set the
need trigger passes to the engine is the first page of the listing (100
entities) and misses volunteer 101, so the set does not contain every
volunteer in the repository: `get_volunteers` is called with its default
limit of 100. -/
theorem trigger_candidates_miss_volunteer_101 :
    dbManyVolunteers.volunteers.length = 101
    ∧ (trigger_need_candidates dbManyVolunteers).length = 100
    ∧ (dbManyVolunteers.volunteers.any (fun v => v.id == 101)) = true
    ∧ ((trigger_need_candidates dbManyVolunteers).any (fun v => v.id == 101)) = false := by
  refine ⟨?_, ?_, ?_, ?_⟩ <;> rfl

/-- C8 amended: the candidate set the trigger passes to the engine is the
first page of the listing (offset 0, limit 100); it contains every volunteer
(respectively need) currently in the repository whenever the repository
holds at most 100 of them. -/
theorem trigger_candidates_complete_up_to_100 (db : DB)
    (hv : db.volunteers.length ≤ 100) (hn : db.needs.length ≤ 100) :
    trigger_need_candidates db = db.volunteers
    ∧ trigger_volunteer_candidates db = db.needs := by
  constructor
  · unfold trigger_need_candidates get_volunteers
    rw [List.drop_zero]
    exact List.take_of_length_le hv
  · unfold trigger_volunteer_candidates get_needs
    rw [List.drop_zero]
    exact List.take_of_length_le hn

/-- Witness for the amended C8 over the seeded database (one volunteer, one
need). -/
theorem trigger_candidates_complete_up_to_100_witness :
    dbSeeded.volunteers.length ≤ 100
    ∧ dbSeeded.needs.length ≤ 100
    ∧ trigger_need_candidates dbSeeded = dbSeeded.volunteers
    ∧ trigger_volunteer_candidates dbSeeded = dbSeeded.needs :=
  ⟨by decide, by decide,
    (trigger_candidates_complete_up_to_100 dbSeeded (by decide) (by decide)).1,
    (trigger_candidates_complete_up_to_100 dbSeeded (by decide) (by decide)).2⟩

/-- C9: for every match notification, both sends are attempted — first to
the volunteer, then to the need contact — whatever the provider does; a
provider failure on a send is caught inside the dispatch helper (the attempt
records it as undelivered instead of raising); and no engine run result
(database state, warnings, errors) depends on the email provider outcomes,
so a send failure never removes or alters a persisted match row and never
propagates to the engine. -/
theorem notification_failure_isolated (sg sg' : EmailOracle) (volunteer : Volunteer)
    (need : Need) (details msg to_addr subj : String) (db : DB) (g : GeminiOutcome)
    (vols : List Volunteer) (needs : List Need) :
    (send_match_notification sg volunteer need details).map (fun a => a.to_email)
        = [volunteer.email, need.contact_email]
    ∧ send_email (fun _ => Except.error msg) to_addr subj
        = { to_email := to_addr, subject := subj, delivered := false }
    ∧ analyze_and_match db need vols g sg = analyze_and_match db need vols g sg'
    ∧ analyze_volunteer_against_all_needs db volunteer needs g sg
        = analyze_volunteer_against_all_needs db volunteer needs g sg' := by
  refine ⟨?_, rfl, ?_, ?_⟩
  · unfold send_match_notification send_email
    cases sg volunteer.email <;> cases sg need.contact_email <;> rfl
  · exact analyze_and_match_oracle_irrel db need vols g sg sg'
  · exact analyze_volunteer_oracle_irrel db volunteer needs g sg sg'

/-- C10: a matching run with a pivot need (respectively volunteer) leaves
the match rows of every other need (respectively volunteer) exactly as they
were: the clear step filters strictly on the pivot id and no insert of the
run targets another pivot. -/
theorem other_pivot_rows_survive_run (db : DB) (need : Need) (volunteer : Volunteer)
    (vols : List Volunteer) (needs : List Need) (g : GeminiOutcome) (sg : EmailOracle) :
    (analyze_and_match db need vols g sg).db.volunteer_need_matches.filter
        (fun m => !(m.need_id == need.id))
      = db.volunteer_need_matches.filter (fun m => !(m.need_id == need.id))
    ∧ (analyze_volunteer_against_all_needs db volunteer needs g sg).db.volunteer_need_matches.filter
        (fun m => !(m.volunteer_id == volunteer.id))
      = db.volunteer_need_matches.filter (fun m => !(m.volunteer_id == volunteer.id)) := by
  constructor
  · rw [analyze_and_match_db_eq]
    exact filter_not_idem (fun m => m.need_id == need.id) db.volunteer_need_matches
  · rw [analyze_volunteer_db_eq]
    exact filter_not_idem (fun m => m.volunteer_id == volunteer.id) db.volunteer_need_matches

end GetVolunteers
